import Mathlib

/-!
Verification of the network-traffic analyzer (desktop GUI
`network_analyzer_ui_v2.py` and HTTP API `network_api_backend.py`).

The two front-ends duplicate one filter/sort/aggregate pipeline over an
in-memory pandas DataFrame.  This file embeds that pipeline shallowly:

* a DataFrame is a `List Record` (rows in order);
* `Series.str.contains(pat, case=False, na=False)` is regex search
  (pandas treats the pattern as a regular expression by default); the
  embedding covers the patterns built from literal characters and the
  dot wildcard, which includes every address pattern of interest;
* `DataFrame.sort_values(by, ascending)` is modelled as a stable
  insertion sort with missing keys placed last (pandas `na_position`
  default).  pandas's own default `kind='quicksort'` promises a sorted
  result but not stability; every theorem below using `sortValues` is
  insensitive to that difference: it either concerns only membership or
  assumes pairwise-distinct keys, where all correct sorts agree;
* Python floats are exact rationals, instants are integers, a missing
  value (NaN) is `Option.none`, an uncaught Python exception is the
  `Except.error` case;
* display-only stringification (f-strings, strftime) is not modelled;
  GUI status messages are modelled by constructor.
-/

namespace NetAnalyzer

/-- The whitespace stripped by Python str.strip: CPython's full Unicode
whitespace set — tab through carriage return, the information separators
1C to 1F, space, next line 85, no-break space A0, ogham space mark 1680,
the spaces 2000 to 200A, the line and paragraph separators 2028 and 2029,
narrow no-break space 202F, medium mathematical space 205F, and the
ideographic space 3000. -/
def pySpace (c : Char) : Bool :=
  let n := c.toNat
  decide ((0x09 ≤ n ∧ n ≤ 0x0d) ∨ n = 0x20 ∨ (0x1c ≤ n ∧ n ≤ 0x1f) ∨
    n = 0x85 ∨ n = 0xa0 ∨ n = 0x1680 ∨ (0x2000 ≤ n ∧ n ≤ 0x200a) ∨
    n = 0x2028 ∨ n = 0x2029 ∨ n = 0x202f ∨ n = 0x205f ∨ n = 0x3000)

/-- Python str.strip: remove leading and trailing whitespace. -/
def pyStrip (s : String) : String :=
  ⟨((s.data.dropWhile pySpace).reverse.dropWhile pySpace).reverse⟩

/-- The metacharacters of Python regular expressions. -/
def reMeta (c : Char) : Bool :=
  c == '.' || c == '^' || c == '$' || c == '*' || c == '+' || c == '?' ||
  c == '\x7b' || c == '\x7d' || c == '[' || c == ']' || c == '\\' ||
  c == '|' || c == '(' || c == ')'

/-- The pattern lies in the fragment of Python regular expressions that
this embedding models: literal characters and the dot wildcard, with no
other metacharacter.  Such a pattern always compiles, and re.search on it
is the position-wise match below.  Patterns outside the fragment — further
regex operators, or malformed patterns on which re.compile raises re.error
(an exception the GUI catches and the API handler does not) — are beyond
the model, and every theorem that exercises pattern matching carries a
patModeled hypothesis confining it to this fragment. -/
def patModeled (pat : String) : Bool :=
  pat.data.all (fun c => !(reMeta c) || c == '.')

/-- The pattern of an optional request parameter lies in the modeled
fragment; an absent parameter triggers no matching at all. -/
def optPatModeled (o : Option String) : Bool :=
  match o with
  | none => true
  | some s => patModeled s

/-- Match a pattern against the front of a character list: a dot matches
any character, any other pattern character matches case-insensitively.
This is Python re matching with re.IGNORECASE for patterns inside the
modeled literal-and-dot fragment (see patModeled); on other patterns this
function is not a model of Python re. -/
def reMatchAt : List Char → List Char → Bool
  | [], _ => true
  | _ :: _, [] => false
  | p :: ps, c :: cs => (p == '.' || p.toLower == c.toLower) && reMatchAt ps cs

/-- Python re.search on character lists: the pattern matches at some
position of the text (faithful on the modeled fragment, see patModeled). -/
def reSearchL (pat : List Char) : List Char → Bool
  | [] => reMatchAt pat []
  | c :: cs => reMatchAt pat (c :: cs) || reSearchL pat cs

/-- Python re.search with re.IGNORECASE, as performed by
Series.str.contains(pat, case=False), for a pattern inside the modeled
literal-and-dot fragment (see patModeled). -/
def reSearch (pat s : String) : Bool :=
  reSearchL pat.data s.data

/-- Whether pat occurs as a contiguous sublist of the text. -/
def isSubL (pat : List Char) : List Char → Bool
  | [] => pat.isEmpty
  | c :: cs => pat.isPrefixOf (c :: cs) || isSubL pat cs

/-- Case-insensitive substring containment: the predicate that the spec's
words describe for the source/destination filters ("contains the given
substring, case-insensitively").  Stated from the spec, to be compared
with the code's regex-based matching. -/
def specContainsCI (pat s : String) : Bool :=
  isSubL (pat.data.map Char.toLower) (s.data.map Char.toLower)

/-- One row of the DataFrame produced by read_csv with columns Timestamp,
Source IP, Dest IP, Protocol, Length, Port.  Timestamps are integer
instants; the address fields are optional to model NaN entries; Port is
float-with-NaN in pandas and modelled as an optional integer. -/
structure Record where
  timestamp : Int
  sourceIP : Option String
  destIP : Option String
  protocol : String
  length : Int
  port : Option Int
  deriving DecidableEq, Repr

/-- The column labels of the loaded DataFrame. -/
inductive Col
  | timestamp | sourceIP | destIP | protocol | length | port
  deriving DecidableEq, Repr

/-- Resolve a column label string; none models the KeyError that pandas
sort_values raises for an unknown label. -/
def colOfString : String → Option Col
  | "Timestamp" => some .timestamp
  | "Source IP" => some .sourceIP
  | "Dest IP" => some .destIP
  | "Protocol" => some .protocol
  | "Length" => some .length
  | "Port" => some .port
  | _ => none

/-- A cell value used as a sort key: integer-like or string-like. -/
inductive Val
  | i (n : Int)
  | s (st : String)
  deriving DecidableEq, Repr

/-- Strict order on cell values.  The cross-constructor cases never arise
within one column and are fixed (integers before strings) only to keep the
comparator total. -/
def valLT : Val → Val → Bool
  | .i a, .i b => decide (a < b)
  | .s a, .s b => decide (a < b)
  | .i _, .s _ => true
  | .s _, .i _ => false

/-- The sort key of a record in a column; none models a missing value. -/
def colVal : Col → Record → Option Val
  | .timestamp, r => some (.i r.timestamp)
  | .sourceIP, r => r.sourceIP.map .s
  | .destIP, r => r.destIP.map .s
  | .protocol, r => some (.s r.protocol)
  | .length, r => some (.i r.length)
  | .port, r => r.port.map .i

/-- Comparator realising the order of pandas sort_values on one column:
missing keys go last in both directions (na_position default), and on
present keys a record precedes another when its key is no greater
(ascending) or no smaller (descending).  Ties compare true, so a stable
sort keeps tied records in their original order. -/
def rowLE (c : Col) (asc : Bool) (a b : Record) : Bool :=
  match colVal c a, colVal c b with
  | none, none => true
  | none, some _ => false
  | some _, none => true
  | some x, some y => if asc then !(valLT y x) else !(valLT x y)

/-- The comparator as a relation, for Mathlib's insertion sort. -/
def rle (c : Col) (asc : Bool) (a b : Record) : Prop :=
  rowLE c asc a b = true

instance (c : Col) (asc : Bool) : DecidableRel (rle c asc) := fun _ _ =>
  inferInstanceAs (Decidable (_ = true))

/-- DataFrame.sort_values(by=c, ascending=asc) on the rows, modelled as a
stable insertion sort by the column key (see the file header about the
pandas default sort kind). -/
def sortValues (rows : List Record) (c : Col) (asc : Bool) : List Record :=
  List.insertionSort (rle c asc) rows

/-- The query parameters read by the API handlers (request.args.get). -/
structure Params where
  protocol : Option String := none
  source_ip : Option String := none
  dest_ip : Option String := none
  sort_by : Option String := none
  ascending : Option String := none
  deriving DecidableEq, Repr

/-- Python truthiness of an optional string: absent and empty are falsy. -/
def truthy : Option String → Bool
  | none => false
  | some s => !(s == "")

/-- An uncaught Python exception escaping a function. -/
inductive PyErr
  | keyError (label : String)
  deriving DecidableEq, Repr

instance {ε α : Type} [DecidableEq ε] [DecidableEq α] :
    DecidableEq (Except ε α) := fun x y =>
  match x, y with
  | .ok a, .ok b =>
    if h : a = b then isTrue (by rw [h])
    else isFalse (fun hc => h (by cases hc; rfl))
  | .error a, .error b =>
    if h : a = b then isTrue (by rw [h])
    else isFalse (fun hc => h (by cases hc; rfl))
  | .ok _, .error _ => isFalse (fun hc => Except.noConfusion hc)
  | .error _, .ok _ => isFalse (fun hc => Except.noConfusion hc)

/-- Series.str.contains(pat, case=False, na=False) applied to an optional
address cell: a missing value never matches (na=False); otherwise Python
re.search of the pattern, case-insensitively.  Total Boolean matching is
faithful only on the modeled literal-and-dot fragment: on a malformed
pattern pandas raises re.error (caught by apply_filter's handler in the
GUI, uncaught in the API), which this embedding does not model — theorems
about pattern matching exclude such patterns via patModeled. -/
def containsPat (field : Option String) (pat : String) : Bool :=
  match field with
  | none => false
  | some s => reSearch pat s

/-- Lines 36 to 38 of network_api_backend.py: keep the rows whose protocol
equals the parameter, when it is truthy and not the sentinel All. -/
def protoStage (df : List Record) (o : Option String) : List Record :=
  match o with
  | some s => if !(s == "") && !(s == "All")
      then df.filter (fun r => r.protocol == s) else df
  | none => df

/-- Lines 41 to 43 of network_api_backend.py: keep the rows whose source
address contains the truthy pattern. -/
def srcStage (df : List Record) (o : Option String) : List Record :=
  match o with
  | some s => if !(s == "")
      then df.filter (fun r => containsPat r.sourceIP s) else df
  | none => df

/-- Lines 46 to 48 of network_api_backend.py: keep the rows whose
destination address contains the truthy pattern. -/
def dstStage (df : List Record) (o : Option String) : List Record :=
  match o with
  | some s => if !(s == "")
      then df.filter (fun r => containsPat r.destIP s) else df
  | none => df

/-- Lines 33 to 48 of get_filtered_df (network_api_backend.py): the protocol
equality filter, then the source and destination substring filters, applied
in order to a copy of the frame. -/
def apiFilterOnly (df : List Record) (p : Params) : List Record :=
  dstStage (srcStage (protoStage df p.protocol) p.source_ip) p.dest_ip

/-- Line 53 of network_api_backend.py: the ascending flag is the literal
string comparison params.get('ascending', 'True') == 'True'. -/
def ascendingOf (p : Params) : Bool :=
  p.ascending.getD "True" == "True"

/-- get_filtered_df (network_api_backend.py lines 26 to 56): the empty frame
when no data is loaded; otherwise the filtered copy of the global frame,
sorted when a truthy sort_by is given.  An unknown sort column is the
uncaught KeyError raised by pandas sort_values. -/
def get_filtered_df (df : Option (List Record)) (p : Params) :
    Except PyErr (List Record) :=
  match df with
  | none => .ok []
  | some table =>
    let filtered := apiFilterOnly table p
    match p.sort_by with
    | some sb =>
      if !(sb == "") then
        match colOfString sb with
        | some c => .ok (sortValues filtered c (ascendingOf p))
        | none => .error (.keyError sb)
      else .ok filtered
    | none => .ok filtered

/-- Number of occurrences of a value in a column. -/
def countOcc (v : String) (l : List String) : Nat :=
  (l.filter (· == v)).length

/-- The distinct values of a column in order of first appearance
(pandas Series.unique). -/
def uniqFirst (l : List String) : List String :=
  l.foldl (fun acc v => if acc.contains v then acc else acc ++ [v]) []

/-- Series.mode()[0]: pandas mode lists the most frequent values sorted
ascending, so its first entry is the least value among those of maximal
count; none models indexing an empty mode series (which happens only when
every value of the column is missing). -/
def modeFirst (l : List String) : Option String :=
  uniqFirst l |>.foldl (fun acc v =>
    match acc with
    | none => some v
    | some w =>
      if countOcc v l > countOcc w l then some v
      else if countOcc v l == countOcc w l && decide (v < w) then some v
      else acc) none

/-- The guarded mode()[0] idiom of both stats computations: the N/A
sentinel when the column (hence the frame) is empty, otherwise the first
mode of the non-missing values, an uncaught KeyError when there is none. -/
def modeIdx0 (isEmptyCol : Bool) (vals : List String) : Except PyErr String :=
  if isEmptyCol then .ok "N/A"
  else match modeFirst vals with
    | some v => .ok v
    | none => .error (.keyError "0")

/-- The key metrics; avg_size is exact rational arithmetic in place of
Python float division, time_range is the (min, max) timestamp pair with
none as the N/A sentinel.  Display formatting is not modelled. -/
structure Stats where
  total_packets : Nat
  total_bytes : Int
  avg_size : Rat
  top_protocol : String
  top_source_ip : String
  top_dest_ip : String
  unique_protocols : Nat
  time_range : Option (Int × Int)
  deriving DecidableEq, Repr

/-- The (min, max) of the Timestamp column, none when the frame is empty. -/
def timeRangeOf (f : List Record) : Option (Int × Int) :=
  match (f.map (·.timestamp)).min?, (f.map (·.timestamp)).max? with
  | some a, some b => some (a, b)
  | _, _ => none

/-- Lines 72 to 97 of get_stats (network_api_backend.py): the statistics of
a filtered frame; avg_size carries the guard `if total_packets > 0 else 0`
of the source. -/
def apiStatsOf (f : List Record) : Except PyErr Stats := do
  let total_packets := f.length
  let total_bytes : Int := (f.map (·.length)).sum
  let avg : Rat := if total_packets > 0 then (total_bytes : Rat) / (total_packets : Rat) else 0
  let tp ← modeIdx0 f.isEmpty (f.map (·.protocol))
  let ts ← modeIdx0 f.isEmpty ((f.map (·.sourceIP)).filterMap id)
  let td ← modeIdx0 f.isEmpty ((f.map (·.destIP)).filterMap id)
  let uniq := if f.isEmpty then 0 else (uniqFirst (f.map (·.protocol))).length
  pure ⟨total_packets, total_bytes, avg, tp, ts, td, uniq, timeRangeOf f⟩

/-- An HTTP response: a JSON payload, or an explicit error status and
message (jsonify({"error": msg}), code). -/
inductive Resp (α : Type)
  | payload (a : α)
  | err (code : Nat) (msg : String)
  deriving DecidableEq, Repr

/-- The /api/stats handler (network_api_backend.py lines 64 to 98): an empty
filtered frame answers the explicit 404 No-data error response; otherwise
the stats payload.  An uncaught exception escapes as the Except error. -/
def get_stats (df : Option (List Record)) (p : Params) :
    Except PyErr (Resp Stats) := do
  let f ← get_filtered_df df p
  if f.isEmpty then
    pure (.err 404 "No data")
  else do
    let s ← apiStatsOf f
    pure (.payload s)

/-- The /api/data handler (network_api_backend.py lines 100 to 113): the
first 200 rows of the filtered frame (the timestamp re-formatting done on
the copy is presentation and not modelled). -/
def api_get_data (df : Option (List Record)) (p : Params) :
    Except PyErr (Resp (List Record)) := do
  let f ← get_filtered_df df p
  pure (.payload (f.take 200))

/-- The GUI status-bar messages (update_status calls), by constructor
instead of formatted text. -/
inductive StatusMsg
  | ready
  | noDataToFilter
  | filtersApplied (n : Nat)
  | filtersCleared (n : Nat)
  | sortedBy (col : String) (descending : Bool)
  | sortError (col : String)
  | statsError
  deriving DecidableEq, Repr

/-- The mutable state of NetTrafficAnalyzer touched by the pipeline: the
baseline frame df, the derived current_df, the sort_state dictionary (which
only ever holds the last sorted column), the displayed key metrics (none
when every metric label shows N/A) and the status bar. -/
structure GuiState where
  df : Option (List Record)
  current_df : Option (List Record)
  sort_state : Option (String × Bool)
  statsShown : Option Stats
  status : StatusMsg
  deriving DecidableEq, Repr

/-- The pure core of apply_filter (network_analyzer_ui_v2.py lines 356 to
376): protocol equality when the combobox value is neither empty nor All,
then the source and destination substring filters on the stripped entry
texts, applied to a copy of the baseline frame. -/
def applyFilterCore (df : List Record) (protocolVar sourceVar destVar : String) :
    List Record :=
  let d1 := if !(protocolVar == "") && !(protocolVar == "All")
    then df.filter (fun r => r.protocol == protocolVar) else df
  let src := pyStrip sourceVar
  let d2 := if !(src == "")
    then d1.filter (fun r => containsPat r.sourceIP src) else d1
  let dst := pyStrip destVar
  let d3 := if !(dst == "")
    then d2.filter (fun r => containsPat r.destIP dst) else d2
  d3

/-- _update_stats (network_analyzer_ui_v2.py lines 451 to 476): the same
computations as the API stats body; np.mean of the Length column equals
sum / count for a non-empty frame and the source guards it to 0 otherwise. -/
def guiStatsOf (f : List Record) : Except PyErr Stats := do
  let total_packets := f.length
  let total_bytes : Int := (f.map (·.length)).sum
  let avg : Rat := if total_packets > 0 then (total_bytes : Rat) / (total_packets : Rat) else 0
  let tp ← modeIdx0 f.isEmpty (f.map (·.protocol))
  let ts ← modeIdx0 f.isEmpty ((f.map (·.sourceIP)).filterMap id)
  let td ← modeIdx0 f.isEmpty ((f.map (·.destIP)).filterMap id)
  let uniq := if f.isEmpty then 0 else (uniqFirst (f.map (·.protocol))).length
  pure ⟨total_packets, total_bytes, avg, tp, ts, td, uniq, timeRangeOf f⟩

/-- update_dashboard (network_analyzer_ui_v2.py lines 399 to 426) restricted
to the tracked state: an absent or empty current_df clears the dashboard
(every metric label back to N/A); otherwise _update_stats repaints the
metrics, and an exception inside it is caught, only setting the status bar
(the labels keep their previous text because _update_stats computes before
it writes any label). -/
def guiUpdateDashboard (s : GuiState) : GuiState :=
  match s.current_df with
  | none => { s with statsShown := none }
  | some f =>
    if f.isEmpty then { s with statsShown := none }
    else match guiStatsOf f with
      | .ok st => { s with statsShown := some st }
      | .error _ => { s with status := .statsError }

/-- apply_filter (network_analyzer_ui_v2.py lines 349 to 387): recomputes
current_df from a copy of the baseline df, refreshes the dashboard, then
reports how many packets are displayed (applied_filters is non-empty
exactly when some stage actually filtered). -/
def guiApplyFilter (s : GuiState) (protocolVar sourceVar destVar : String) :
    GuiState :=
  match s.df with
  | none => { s with status := .noDataToFilter }
  | some table =>
    let f := applyFilterCore table protocolVar sourceVar destVar
    let s1 := guiUpdateDashboard { s with current_df := some f }
    let anyApplied := (!(protocolVar == "") && !(protocolVar == "All")) ||
      !(pyStrip sourceVar == "") || !(pyStrip destVar == "")
    if anyApplied then { s1 with status := .filtersApplied f.length }
    else { s1 with status := .filtersCleared f.length }

/-- clear_filters (network_analyzer_ui_v2.py lines 389 to 395): resets the
three filter inputs and the sort_state dictionary, then re-runs
apply_filter. -/
def guiClearFilters (s : GuiState) : GuiState :=
  guiApplyFilter { s with sort_state := none } "All" "" ""

/-- _sort_treeview (network_analyzer_ui_v2.py lines 505 to 525): a no-op
when current_df is absent or empty; otherwise it overwrites sort_state with
the last sorted column, sorts current_df in place by that column and
reports; the KeyError of an unknown column is caught, leaving current_df
as it was and reporting the error in the status bar (sort_state was
already overwritten before the exception was raised). -/
def guiSortTreeview (s : GuiState) (col : String) (rev : Bool) : GuiState :=
  match s.current_df with
  | none => s
  | some f =>
    if f.isEmpty then s
    else
      let s1 := { s with sort_state := some (col, rev) }
      match colOfString col with
      | some c =>
        { s1 with current_df := some (sortValues f c (!rev)),
                  status := .sortedBy col rev }
      | none => { s1 with status := .sortError col }

/-- The user actions, after a load, that drive the pipeline. -/
inductive GuiOp
  | filter (protocolVar sourceVar destVar : String)
  | clear
  | sortCol (col : String) (rev : Bool)
  | refresh
  deriving DecidableEq, Repr

/-- One user action on the GUI state. -/
def guiStep (s : GuiState) : GuiOp → GuiState
  | .filter p a b => guiApplyFilter s p a b
  | .clear => guiClearFilters s
  | .sortCol c r => guiSortTreeview s c r
  | .refresh => guiUpdateDashboard s

/-- A sequence of user actions on the GUI state. -/
def guiRun (s : GuiState) (ops : List GuiOp) : GuiState :=
  ops.foldl guiStep s

/-- The conjunction of the three effective GUI filter predicates. -/
def guiPred (protocolVar sourceVar destVar : String) (r : Record) : Bool :=
  (if !(protocolVar == "") && !(protocolVar == "All")
    then r.protocol == protocolVar else true) &&
  ((if !(pyStrip sourceVar == "")
    then containsPat r.sourceIP (pyStrip sourceVar) else true) &&
  (if !(pyStrip destVar == "")
    then containsPat r.destIP (pyStrip destVar) else true))

/-- The effective API protocol predicate on one record. -/
def protoPredA (o : Option String) (r : Record) : Bool :=
  match o with
  | some s => if !(s == "") && !(s == "All") then r.protocol == s else true
  | none => true

/-- The effective API source-address predicate on one record. -/
def srcPredA (o : Option String) (r : Record) : Bool :=
  match o with
  | some s => if !(s == "") then containsPat r.sourceIP s else true
  | none => true

/-- The effective API destination-address predicate on one record. -/
def dstPredA (o : Option String) (r : Record) : Bool :=
  match o with
  | some s => if !(s == "") then containsPat r.destIP s else true
  | none => true

/-- The conjunction of the three effective API filter predicates. -/
def apiPred (p : Params) (r : Record) : Bool :=
  protoPredA p.protocol r && (srcPredA p.source_ip r && dstPredA p.dest_ip r)

/-- The spec's scenario table: (t1, A, B, TCP, 100), (t2, A, C, UDP, 200),
(t3, C, B, TCP, 50). -/
def rowA : Record := ⟨1, some "A", some "B", "TCP", 100, some 80⟩

/-- Second scenario record. -/
def rowB : Record := ⟨2, some "A", some "C", "UDP", 200, some 53⟩

/-- Third scenario record. -/
def rowC : Record := ⟨3, some "C", some "B", "TCP", 50, some 80⟩

/-- The three-record scenario table. -/
def T3 : List Record := [rowA, rowB, rowC]

/-- A record whose source address defeats the substring reading of the
filters: it does not contain the text 1.2 but matches it as a regex. -/
def rowReg : Record := ⟨1, some "1a2", some "y", "TCP", 5, none⟩

/-- A record used to separate the two front-ends on whitespace-padded
filter input. -/
def rowWS : Record := ⟨1, some "abc", some "x", "TCP", 10, none⟩

/-! ### Supporting lemmas on the value order -/

theorem valLT_irrefl (x : Val) : valLT x x = false := by
  cases x <;> simp [valLT]

theorem valLT_asymm {x y : Val} (h : valLT x y = true) : valLT y x = false := by
  cases x <;> cases y <;>
    simp only [valLT, decide_eq_true_eq, decide_eq_false_iff_not] at h ⊢ <;>
    first
      | rfl
      | exact Bool.noConfusion h
      | exact lt_asymm h

theorem valLT_negtrans {x y z : Val} (h1 : valLT y x = false)
    (h2 : valLT z y = false) : valLT z x = false := by
  cases x <;> cases y <;> cases z <;>
    simp only [valLT, decide_eq_true_eq, decide_eq_false_iff_not] at h1 h2 ⊢ <;>
    first
      | rfl
      | exact Bool.noConfusion h1
      | exact Bool.noConfusion h2
      | exact fun hc => h1 (lt_of_le_of_lt (le_of_not_lt h2) hc)

theorem valLT_connex {x y : Val} (h : x ≠ y) :
    valLT x y = true ∨ valLT y x = true := by
  cases x <;> cases y <;>
    simp only [ne_eq, Val.i.injEq, Val.s.injEq] at h <;>
    simp only [valLT, decide_eq_true_eq] <;>
    first
      | exact Or.inl trivial
      | exact Or.inr trivial
      | omega
      | exact lt_or_gt_of_ne h

theorem valLT_not_both (x y : Val) :
    valLT x y = false ∨ valLT y x = false := by
  rcases Bool.eq_false_or_eq_true (valLT x y) with h | h
  · exact Or.inr (valLT_asymm h)
  · exact Or.inl h

theorem rowLE_total (c : Col) (asc : Bool) (a b : Record) :
    rowLE c asc a b = true ∨ rowLE c asc b a = true := by
  unfold rowLE
  cases ha : colVal c a <;> cases hb : colVal c b <;> simp
  rename_i x y
  cases asc <;> simp
  · exact valLT_not_both x y
  · exact valLT_not_both y x

theorem rowLE_trans (c : Col) (asc : Bool) {a b d : Record}
    (h1 : rowLE c asc a b = true) (h2 : rowLE c asc b d = true) :
    rowLE c asc a d = true := by
  unfold rowLE at h1 h2 ⊢
  cases asc <;>
    cases ha : colVal c a <;> cases hb : colVal c b <;> cases hd : colVal c d <;>
      simp_all
  · exact valLT_negtrans h2 h1
  · exact valLT_negtrans h1 h2

instance (c : Col) (asc : Bool) : IsTotal Record (rle c asc) :=
  ⟨fun a b => rowLE_total c asc a b⟩

instance (c : Col) (asc : Bool) : IsTrans Record (rle c asc) :=
  ⟨fun _ _ _ h1 h2 => rowLE_trans c asc h1 h2⟩

theorem orderedInsert_append {α : Type} (r : α → α → Prop) [DecidableRel r]
    (a : α) : ∀ m : List α, (∀ b ∈ m, ¬ r a b) → m.orderedInsert r a = m ++ [a]
  | [], _ => rfl
  | b :: t, h => by
    simp only [List.orderedInsert]
    rw [if_neg (h b (List.mem_cons_self b t)),
      orderedInsert_append r a t (fun x hx => h x (List.mem_cons_of_mem b hx))]
    rfl

/-- Sorting a strictly ascending list in descending direction reverses it
(with all keys present and pairwise distinct, every correct sort agrees on
this outcome, so the result does not depend on the choice of sort kind). -/
theorem insertionSortDesc_of_sortedAsc (c : Col) :
    ∀ l : List Record, List.Sorted (rle c true) l →
      l.Pairwise (fun a b => colVal c a ≠ colVal c b) →
      (∀ r ∈ l, (colVal c r).isSome) →
      List.insertionSort (rle c false) l = l.reverse
  | [], _, _, _ => rfl
  | a :: t, hs, hp, hsome => by
    have ih := insertionSortDesc_of_sortedAsc c t hs.of_cons
      (List.pairwise_cons.mp hp).2
      (fun r hr => hsome r (List.mem_cons_of_mem a hr))
    have hlast : ∀ b ∈ t.reverse, ¬ rle c false a b := by
      intro b hb
      have hbt : b ∈ t := List.mem_reverse.mp hb
      obtain ⟨x, hx⟩ :=
        Option.isSome_iff_exists.mp (hsome a (List.mem_cons_self a t))
      obtain ⟨y, hy⟩ :=
        Option.isSome_iff_exists.mp (hsome b (List.mem_cons_of_mem a hbt))
      have h1 : rowLE c true a b = true := List.rel_of_sorted_cons hs b hbt
      unfold rowLE at h1
      rw [hx, hy] at h1
      simp at h1
      have hne : colVal c a ≠ colVal c b := (List.pairwise_cons.mp hp).1 b hbt
      rw [hx, hy] at hne
      have hxy : x ≠ y := fun he => hne (by rw [he])
      have hlt : valLT x y = true := by
        rcases valLT_connex hxy with h | h
        · exact h
        · rw [h] at h1
          cases h1
      intro hcontra
      have hcontra' : rowLE c false a b = true := hcontra
      unfold rowLE at hcontra'
      rw [hx, hy] at hcontra'
      simp [hlt] at hcontra'
    simp only [List.insertionSort]
    rw [ih, orderedInsert_append _ a t.reverse hlast, List.reverse_cons]

/-! ### Supporting lemmas on the filter pipeline -/

theorem protoStage_eq (df : List Record) (o : Option String) :
    protoStage df o = df.filter (fun r => protoPredA o r) := by
  cases o with
  | none => simp [protoStage, protoPredA]
  | some s =>
    rcases Bool.eq_false_or_eq_true (!(s == "") && !(s == "All")) with h | h <;>
      simp [protoStage, protoPredA, h]

theorem srcStage_eq (df : List Record) (o : Option String) :
    srcStage df o = df.filter (fun r => srcPredA o r) := by
  cases o with
  | none => simp [srcStage, srcPredA]
  | some s =>
    rcases Bool.eq_false_or_eq_true (!(s == "")) with h | h <;>
      simp [srcStage, srcPredA, h]

theorem dstStage_eq (df : List Record) (o : Option String) :
    dstStage df o = df.filter (fun r => dstPredA o r) := by
  cases o with
  | none => simp [dstStage, dstPredA]
  | some s =>
    rcases Bool.eq_false_or_eq_true (!(s == "")) with h | h <;>
      simp [dstStage, dstPredA, h]

theorem apiFilterOnly_eq_filter (df : List Record) (q : Params) :
    apiFilterOnly df q = df.filter (fun r => apiPred q r) := by
  unfold apiFilterOnly apiPred
  rw [protoStage_eq, srcStage_eq, dstStage_eq, List.filter_filter,
    List.filter_filter]
  congr 1
  funext r
  simp [Bool.and_comm, Bool.and_left_comm, Bool.and_assoc]

theorem applyFilterCore_eq_filter (df : List Record) (p s d : String) :
    applyFilterCore df p s d = df.filter (fun r => guiPred p s d r) := by
  rcases Bool.eq_false_or_eq_true (!(p == "") && !(p == "All")) with h1 | h1 <;>
  rcases Bool.eq_false_or_eq_true (!(pyStrip s == "")) with h2 | h2 <;>
  rcases Bool.eq_false_or_eq_true (!(pyStrip d == "")) with h3 | h3 <;>
    simp [applyFilterCore, guiPred, h1, h2, h3, List.filter_filter,
      Bool.and_comm, Bool.and_left_comm, Bool.and_assoc]

/-! ### Supporting lemmas tying regex search to substring containment -/

theorem reMatchAt_eq_isPrefixOf :
    ∀ (pat l : List Char), '.' ∉ pat →
      reMatchAt pat l = (pat.map Char.toLower).isPrefixOf (l.map Char.toLower)
  | [], l, _ => by simp [reMatchAt, List.isPrefixOf]
  | p :: ps, [], _ => by simp [reMatchAt, List.isPrefixOf]
  | p :: ps, c :: cs, h => by
    have hp : (p == '.') = false :=
      beq_eq_false_iff_ne.mpr (fun he => h (he ▸ List.mem_cons_self p ps))
    have ih := reMatchAt_eq_isPrefixOf ps cs (fun hm => h (List.mem_cons_of_mem p hm))
    simp [reMatchAt, List.isPrefixOf, hp, ih]

theorem reSearchL_eq_isSubL :
    ∀ (pat l : List Char), '.' ∉ pat →
      reSearchL pat l = isSubL (pat.map Char.toLower) (l.map Char.toLower)
  | pat, [], _ => by
    cases pat with
    | nil => rfl
    | cons p ps => rfl
  | pat, c :: cs, h => by
    have ih := reSearchL_eq_isSubL pat cs h
    simp [reSearchL, isSubL, reMatchAt_eq_isPrefixOf pat (c :: cs) h, ih]

theorem reSearch_eq_specContainsCI {pat text : String} (h : '.' ∉ pat.data) :
    reSearch pat text = specContainsCI pat text :=
  reSearchL_eq_isSubL pat.data text.data h

theorem noMeta_no_dot {pat : String}
    (h : pat.data.all (fun c => !(reMeta c)) = true) : '.' ∉ pat.data := by
  intro hm
  have hd := List.all_eq_true.mp h '.' hm
  simp [reMeta] at hd

/-! ### Supporting lemmas: the GUI baseline frame is never written -/

theorem guiUpdateDashboard_df (s : GuiState) : (guiUpdateDashboard s).df = s.df := by
  unfold guiUpdateDashboard
  cases s.current_df with
  | none => rfl
  | some f =>
    cases h : f.isEmpty <;> simp [h]
    cases guiStatsOf f <;> rfl

theorem guiApplyFilter_df (s : GuiState) (p a b : String) :
    (guiApplyFilter s p a b).df = s.df := by
  unfold guiApplyFilter
  cases s.df with
  | none => rfl
  | some table =>
    cases h : ((!(p == "") && !(p == "All")) || !(pyStrip a == "") ||
        !(pyStrip b == "")) <;>
      simp [h, guiUpdateDashboard_df]

theorem guiSortTreeview_df (s : GuiState) (col : String) (rv : Bool) :
    (guiSortTreeview s col rv).df = s.df := by
  unfold guiSortTreeview
  cases s.current_df with
  | none => rfl
  | some f =>
    cases h : f.isEmpty <;> simp [h]
    cases colOfString col <;> rfl

theorem guiStep_df (s : GuiState) (op : GuiOp) : (guiStep s op).df = s.df := by
  cases op with
  | filter p a b => exact guiApplyFilter_df s p a b
  | clear => exact guiApplyFilter_df { s with sort_state := none } "All" "" ""
  | sortCol c r => exact guiSortTreeview_df s c r
  | refresh => exact guiUpdateDashboard_df s

/-! ### The claims -/

/-- C1, counterexample: the claim reads the source/destination filters as
case-insensitive substring containment, but str.contains treats the pattern
as a regular expression, so the record with source 1a2 is kept by the
filter 1.2 (the dot matches any character) although it does not contain the
substring 1.2 — a record inside the result that fails the claimed
predicate, in both front-ends. -/
theorem c1_counterexample :
    apiFilterOnly [rowReg] ⟨none, some "1.2", none, none, none⟩ = [rowReg] ∧
    applyFilterCore [rowReg] "" "1.2" "" = [rowReg] ∧
    specContainsCI "1.2" "1a2" = false := by decide

/-- C1, amended: for every table and every filter spec with at least one
constraint whose source/destination patterns lie inside the modeled
literal-and-dot regex fragment, both filtering operations return exactly
the records satisfying all specified predicates, where the address
predicates are case-insensitive regular-expression search (re.search) of
the given pattern — stripped of surrounding whitespace in the GUI — rather
than substring containment; on patterns free of every regex metacharacter
the search coincides with case-insensitive substring containment.
Patterns outside the fragment (further regex operators, or malformed
patterns on which re.compile raises re.error — caught by the GUI, crashing
the API handler) are outside this claim. -/
theorem c1_filters_are_exact :
    (∀ (df : List Record) (p s d : String),
      ((p ≠ "" ∧ p ≠ "All") ∨ pyStrip s ≠ "" ∨ pyStrip d ≠ "") →
      patModeled (pyStrip s) = true → patModeled (pyStrip d) = true →
      applyFilterCore df p s d = df.filter (fun r => guiPred p s d r)) ∧
    (∀ (df : List Record) (q : Params),
      ((∃ ps, q.protocol = some ps ∧ ps ≠ "" ∧ ps ≠ "All") ∨
        truthy q.source_ip = true ∨ truthy q.dest_ip = true) →
      optPatModeled q.source_ip = true → optPatModeled q.dest_ip = true →
      apiFilterOnly df q = df.filter (fun r => apiPred q r)) ∧
    (∀ (pat text : String), pat.data.all (fun c => !(reMeta c)) = true →
      reSearch pat text = specContainsCI pat text) :=
  ⟨fun df p s d _ _ _ => applyFilterCore_eq_filter df p s d,
   fun df q _ _ _ => apiFilterOnly_eq_filter df q,
   fun _ _ h => reSearch_eq_specContainsCI (noMeta_no_dot h)⟩

/-- C1, witness for the amended claim at concrete inputs. -/
theorem c1_witness :
    applyFilterCore T3 "TCP" "" "" = T3.filter (fun r => guiPred "TCP" "" "" r) ∧
    apiFilterOnly T3 ⟨some "TCP", none, none, none, none⟩ =
      T3.filter (fun r => apiPred ⟨some "TCP", none, none, none, none⟩ r) ∧
    reSearch "a" "1a2" = specContainsCI "a" "1a2" :=
  ⟨c1_filters_are_exact.1 T3 "TCP" "" "" (Or.inl ⟨by decide, by decide⟩)
     (by decide) (by decide),
   c1_filters_are_exact.2.1 T3 ⟨some "TCP", none, none, none, none⟩
     (Or.inl ⟨"TCP", rfl, by decide, by decide⟩) (by decide) (by decide),
   c1_filters_are_exact.2.2 "a" "1a2" (by decide)⟩

/-- C3, counterexample: on the scenario table, whose Length values 100, 200,
50 are pairwise distinct, sorting by Length ascending and then descending
does not restore the original order (it yields the descending order
[200, 100, 50], while the table was loaded as [100, 200, 50]). -/
theorem c3_counterexample :
    sortValues (sortValues T3 .length true) .length false ≠ T3 := by decide

/-- C3, amended: for a view whose (present) values in the column are
pairwise distinct, sorting ascending and then descending yields the reverse
of the ascending order — the view sorted descending — which coincides with
the original order only when the view was already sorted descending. -/
theorem c3_sort_roundtrip_reverses (v : List Record) (c : Col)
    (hsome : ∀ r ∈ v, (colVal c r).isSome)
    (hdist : v.Pairwise (fun a b => colVal c a ≠ colVal c b)) :
    sortValues (sortValues v c true) c false = (sortValues v c true).reverse := by
  have hperm := List.perm_insertionSort (rle c true) v
  have hsorted := List.sorted_insertionSort (rle c true) v
  have hsome' : ∀ r ∈ List.insertionSort (rle c true) v, (colVal c r).isSome :=
    fun r hr => hsome r (hperm.mem_iff.mp hr)
  have hdist' : (List.insertionSort (rle c true) v).Pairwise
      (fun a b => colVal c a ≠ colVal c b) :=
    (hperm.pairwise_iff (fun hne he => hne he.symm)).mpr hdist
  exact insertionSortDesc_of_sortedAsc c _ hsorted hdist' hsome'

/-- C3, witness for the amended claim on the scenario table. -/
theorem c3_witness :
    sortValues (sortValues T3 .length true) .length false =
      (sortValues T3 .length true).reverse :=
  c3_sort_roundtrip_reverses T3 .length (by decide) (by decide)

/-- C4, counterexample: the API stats endpoint on an empty view does not
answer the claimed zero/sentinel statistics; it answers the explicit 404
No-data error response. -/
theorem c4_counterexample :
    get_stats (some []) ⟨none, none, none, none, none⟩ =
      .ok (.err 404 "No data") := by decide

/-- C4, amended: an empty view never produces a division error or an
uncaught exception, but neither front-end reports the zero sentinels: the
API answers the 404 No-data error response whenever the filtered frame is
empty, and the GUI clears every metric label back to N/A; the underlying
stats computation of both front-ends, applied to an empty view, does yield
total_count 0, total_bytes 0, average_size 0 and the N/A time range. -/
theorem c4_empty_view_handling :
    (∀ (df : Option (List Record)) (p : Params),
      get_filtered_df df p = .ok [] →
      get_stats df p = .ok (.err 404 "No data")) ∧
    (∀ s : GuiState, s.current_df = some [] →
      (guiUpdateDashboard s).statsShown = none) ∧
    apiStatsOf [] = .ok ⟨0, 0, 0, "N/A", "N/A", "N/A", 0, none⟩ ∧
    guiStatsOf [] = .ok ⟨0, 0, 0, "N/A", "N/A", "N/A", 0, none⟩ := by
  refine ⟨?_, ?_, by decide, by decide⟩
  · intro df p h
    unfold get_stats
    rw [h]
    rfl
  · intro s h
    unfold guiUpdateDashboard
    rw [h]
    rfl

/-- C4, witness for the amended claim at concrete inputs. -/
theorem c4_witness :
    get_stats (some []) ⟨some "All", none, none, none, none⟩ =
      .ok (.err 404 "No data") ∧
    (guiUpdateDashboard ⟨some T3, some [], none, none, .ready⟩).statsShown = none :=
  ⟨c4_empty_view_handling.1 (some []) ⟨some "All", none, none, none, none⟩ (by decide),
   c4_empty_view_handling.2.1 ⟨some T3, some [], none, none, .ready⟩ rfl⟩

/-- C5, counterexample: in the API an unknown sort column is not a request
error: the KeyError of sort_values escapes the uncaught handler computation
(surfacing as an internal server error), here shown on the data endpoint. -/
theorem c5_counterexample :
    api_get_data (some T3) ⟨none, none, none, some "Nope", none⟩ =
      .error (.keyError "Nope") := by decide

/-- C5, amended: when a non-empty view is displayed, an unknown sort column
is reported in the GUI — the view is left unchanged and the status bar
shows the sort error; when no view is present or the displayed view is
empty, the sort handler returns silently, with no report of any kind
(lines 509 and 510), so the claimed never-silently-no-op also fails there;
in the API the KeyError propagates out of get_filtered_df uncaught, so the
handler crashes with an internal error rather than answering a request
error. -/
theorem c5_unknown_sort_column :
    (∀ (s : GuiState) (col : String) (rv : Bool),
      (s.current_df = none ∨ s.current_df = some []) →
      guiSortTreeview s col rv = s) ∧
    (∀ (s : GuiState) (v : List Record) (col : String) (rv : Bool),
      s.current_df = some v → v ≠ [] → colOfString col = none →
      (guiSortTreeview s col rv).current_df = s.current_df ∧
      (guiSortTreeview s col rv).status = .sortError col) ∧
    (∀ (df : List Record) (p : Params) (sb : String),
      p.sort_by = some sb → sb ≠ "" → colOfString sb = none →
      get_filtered_df (some df) p = .error (.keyError sb)) := by
  refine ⟨?_, ?_, ?_⟩
  · intro s col rv h
    rcases h with h | h <;> simp [guiSortTreeview, h]
  · intro s v col rv hcd hne hcol
    have hemp : v.isEmpty = false := by
      cases v with
      | nil => exact absurd rfl hne
      | cons a t => rfl
    unfold guiSortTreeview
    rw [hcd]
    simp [hemp, hcol, hcd]
  · intro df p sb h1 h2 h3
    have hb : (sb == "") = false := beq_eq_false_iff_ne.mpr h2
    simp only [get_filtered_df, h1, hb, Bool.not_false, if_true, h3]

/-- C5, witness for the amended claim at concrete inputs: the silent no-op
on an absent view (even for an existing column), the reported error on a
non-empty view, and the escaping KeyError in the API. -/
theorem c5_witness :
    guiSortTreeview ⟨some T3, none, none, none, .ready⟩ "Length" false =
      ⟨some T3, none, none, none, .ready⟩ ∧
    (guiSortTreeview ⟨some T3, some T3, none, none, .ready⟩ "Nope" false).current_df =
      (⟨some T3, some T3, none, none, .ready⟩ : GuiState).current_df ∧
    (guiSortTreeview ⟨some T3, some T3, none, none, .ready⟩ "Nope" false).status =
      .sortError "Nope" ∧
    get_filtered_df (some T3) ⟨none, none, none, some "Nope", none⟩ =
      .error (.keyError "Nope") :=
  ⟨c5_unknown_sort_column.1 ⟨some T3, none, none, none, .ready⟩ "Length" false
     (Or.inl rfl),
   (c5_unknown_sort_column.2.1 ⟨some T3, some T3, none, none, .ready⟩ T3 "Nope" false
      rfl (by decide) rfl).1,
   (c5_unknown_sort_column.2.1 ⟨some T3, some T3, none, none, .ready⟩ T3 "Nope" false
      rfl (by decide) rfl).2,
   c5_unknown_sort_column.2.2 T3 ⟨none, none, none, some "Nope", none⟩ "Nope"
     rfl (by decide) rfl⟩

/-- C6: with no constraints set — protocol absent, empty, or the sentinel
All, and empty source and destination patterns — both filtering operations
return the full table, record for record and in order. -/
theorem c6_no_constraints_identity :
    (∀ (df : List Record) (p s d : String), (p = "" ∨ p = "All") → s = "" → d = "" →
      applyFilterCore df p s d = df) ∧
    (∀ (df : List Record) (po so dpo ao : Option String),
      (po = none ∨ po = some "All") → (so = none ∨ so = some "") →
      (dpo = none ∨ dpo = some "") →
      get_filtered_df (some df) ⟨po, so, dpo, none, ao⟩ = .ok df) := by
  constructor
  · rintro df p s d (rfl | rfl) rfl rfl <;>
      simp [applyFilterCore, show (pyStrip "" == "") = true from rfl,
        show ("All" == "") = false from rfl, show ("All" == "All") = true from rfl]
  · rintro df po so dpo ao (rfl | rfl) (rfl | rfl) (rfl | rfl) <;>
      simp [get_filtered_df, apiFilterOnly, protoStage, srcStage, dstStage,
        show ("All" == "") = false from rfl, show ("All" == "All") = true from rfl]

/-- C6, witness at concrete inputs. -/
theorem c6_witness :
    applyFilterCore T3 "All" "" "" = T3 ∧
    get_filtered_df (some T3) ⟨some "All", some "", none, none, none⟩ = .ok T3 :=
  ⟨c6_no_constraints_identity.1 T3 "All" "" "" (Or.inr rfl) rfl rfl,
   c6_no_constraints_identity.2 T3 (some "All") (some "") none none
     (Or.inr rfl) (Or.inr rfl) (Or.inl rfl)⟩

/-- C8: after any sequence of filter, clear, sort and dashboard-refresh
actions, the baseline frame df of the GUI state is exactly what it was
after load — every derived view is recomputed from a copy, and the in-place
sort only ever touches the derived current_df. -/
theorem c8_baseline_never_mutated (ops : List GuiOp) (s : GuiState) :
    (guiRun s ops).df = s.df := by
  induction ops generalizing s with
  | nil => rfl
  | cons op t ih =>
    show (guiRun (guiStep s op) t).df = s.df
    rw [ih, guiStep_df]

/-- C9, counterexample: on a whitespace-padded source pattern the two
front-ends disagree: the GUI strips the pattern and keeps the record with
source abc, while the API searches for the padded text and returns the
empty view. -/
theorem c9_counterexample :
    applyFilterCore [rowWS] "All" "a " "" = [rowWS] ∧
    get_filtered_df (some [rowWS]) ⟨some "All", some "a ", some "", none, none⟩ =
      .ok [] := by decide

/-- C9, amended: the GUI and API filtering paths produce the same view for
every table and every protocol/source/destination combination whose
substring fields carry no leading or trailing whitespace (Python's full
whitespace set — the GUI strips its entry texts, the API does not) and
whose patterns lie inside the modeled literal-and-dot regex fragment (so
they compile without re.error; a malformed pattern is a second divergence,
caught by the GUI but crashing the API handler, outside this claim). -/
theorem c9_front_ends_agree_on_stripped (df : List Record) (p s d : String)
    (ao : Option String) (hs : pyStrip s = s) (hd : pyStrip d = d)
    (_hms : patModeled s = true) (_hmd : patModeled d = true) :
    get_filtered_df (some df) ⟨some p, some s, some d, none, ao⟩ =
      .ok (applyFilterCore df p s d) := by
  simp only [get_filtered_df, apiFilterOnly, protoStage, srcStage, dstStage,
    applyFilterCore, hs, hd]

/-- C9, witness for the amended claim at concrete inputs. -/
theorem c9_witness :
    get_filtered_df (some T3) ⟨some "TCP", some "a", some "", none, none⟩ =
      .ok (applyFilterCore T3 "TCP" "a" "") :=
  c9_front_ends_agree_on_stripped T3 "TCP" "a" "" none (by decide) (by decide)
    (by decide) (by decide)

/-- C10: with a truthy sort_by naming an existing column, the API sorts the
filtered view ascending exactly when the ascending parameter is absent or
is the literal string True — any other value, including true, 1 or yes,
compares unequal and yields a descending sort. -/
theorem c10_api_ascending_is_literal_True (df : List Record) (p : Params)
    (sb : String) (c : Col) (h1 : p.sort_by = some sb) (h2 : sb ≠ "")
    (h3 : colOfString sb = some c) :
    get_filtered_df (some df) p =
      .ok (sortValues (apiFilterOnly df p) c (ascendingOf p)) ∧
    (ascendingOf p = true ↔ p.ascending = none ∨ p.ascending = some "True") := by
  constructor
  · have hb : (sb == "") = false := beq_eq_false_iff_ne.mpr h2
    simp only [get_filtered_df, h1, hb, Bool.not_false, if_true, h3]
  · cases ha : p.ascending with
    | none => simp [ascendingOf, ha]
    | some a => simp [ascendingOf, ha]

/-- C10, witness: the value true (lower case) yields a descending sort. -/
theorem c10_witness :
    get_filtered_df (some T3) ⟨none, none, none, some "Length", some "true"⟩ =
      .ok (sortValues (apiFilterOnly T3 ⟨none, none, none, some "Length", some "true"⟩)
        .length (ascendingOf ⟨none, none, none, some "Length", some "true"⟩)) ∧
    (ascendingOf ⟨none, none, none, some "Length", some "true"⟩ = true ↔
      (⟨none, none, none, some "Length", some "true"⟩ : Params).ascending = none ∨
      (⟨none, none, none, some "Length", some "true"⟩ : Params).ascending =
        some "True") :=
  c10_api_ascending_is_literal_True T3 ⟨none, none, none, some "Length", some "true"⟩
    "Length" .length rfl (by decide) rfl

end NetAnalyzer
